import Mathlib

/-!
Shallow embedding of the torrent cell renderer (src/gtk/TorrentCellRenderer.cc).

The renderer draws the status row of one torrent in a list/tree view, in two layout
modes (compact and full).  Pure value computations of the C++ source (string
building, layout arithmetic, color selection, the cairo compositing pipeline)
are translated into Lean functions.  Mutable GTK child-renderer state
(the text, progress and pixbuf cell renderers owned by the Impl) is threaded
explicitly through a state record; data reached through const pointers
(the tr_stat snapshot, the torrent, the renderer property values) is returned
unchanged alongside the output of each operation, mirroring the const discipline of
the source.  External collaborators (libtransmission formatting helpers,
Pango and GTK measurement, the cairo device transform) are kept abstract in a
record of functions, as the specification treats them as excluded externals.
-/

set_option autoImplicit false

/-- Torrent activity states, mirroring tr_torrent_activity in
libtransmission/transmission.h. -/
inductive TrTorrentActivity
| stopped
| checkWait
| check
| downloadWait
| download
| seedWait
| seed
deriving DecidableEq, Repr

/-- Torrent error kinds, mirroring tr_stat_errtype; ok is TR_STAT_OK. -/
inductive TrStatErrtype
| ok
| trackerWarning
| trackerError
| localError
deriving DecidableEq, Repr

/-- The statistics snapshot tr_stat, restricted to the fields this renderer
reads.  C doubles are modelled as rationals; C integer counts as Nat; eta as
Int (it is negative when unknown). -/
structure TrStat where
  activity : TrTorrentActivity
  error : TrStatErrtype
  errorString : String
  leftUntilDone : Nat
  sizeWhenDone : Nat
  haveUnchecked : Nat
  haveValid : Nat
  uploadedEver : Nat
  percentDone : Rat
  percentComplete : Rat
  seedRatioPercentDone : Rat
  metadataPercentComplete : Rat
  recheckProgress : Rat
  ratio : Rat
  eta : Int
  peersConnected : Nat
  peersSendingToUs : Nat
  webseedsSendingToUs : Nat
  peersGettingFromUs : Nat
  isStalled : Bool
  finished : Bool
deriving DecidableEq, Repr

/-- The torrent, restricted to what the renderer reaches through the
libtransmission accessors: name, total size, metadata flag, the optional
seed-ratio setting, the file names, and the cached stat snapshot. -/
structure TrTorrent where
  name : String
  totalSize : Nat
  hasMetadata : Bool
  seedRatio : Option Rat
  files : List String
  st : TrStat
deriving DecidableEq, Repr

def tr_torrentName (tor : TrTorrent) : String := tor.name

def tr_torrentTotalSize (tor : TrTorrent) : Nat := tor.totalSize

def tr_torrentHasMetadata (tor : TrTorrent) : Bool := tor.hasMetadata

/-- tr_torrentGetSeedRatio(tor, &d): the boolean result is isSome, the
written-through double is the carried value. -/
def tr_torrentGetSeedRatio (tor : TrTorrent) : Option Rat := tor.seedRatio

def tr_torrentStatCached (tor : TrTorrent) : TrStat := tor.st

def tr_torrentFileCount (tor : TrTorrent) : Nat := tor.files.length

/-- A width/height requisition (Gtk::Requisition). -/
structure Size where
  width : Int
  height : Int
deriving DecidableEq, Repr

/-- Pango font weights used by the renderer. -/
inductive PangoWeight
| normal
| bold
deriving DecidableEq, Repr

/-- Pango ellipsize modes used by the renderer. -/
inductive PangoEllipsizeMode
| noneMode
| endMode
deriving DecidableEq, Repr

/-- Icon sizes used by the renderer: CompactIconSize is the menu size,
FullIconSize is the drag-and-drop size. -/
inductive GtkIconSizeKind
| menu
| dnd
deriving DecidableEq, Repr

def CompactIconSize : GtkIconSizeKind := GtkIconSizeKind.menu

def FullIconSize : GtkIconSizeKind := GtkIconSizeKind.dnd

/-- Mutable state of the Gtk::CellRendererText child renderer: the properties
this component sets.  A foreground of some c models property_foreground set
to color c; none models property_foreground_set cleared. -/
structure TextRendererState where
  text : String
  scale : Rat
  weight : PangoWeight
  ellipsize : PangoEllipsizeMode
  foreground : Option String
deriving DecidableEq, Repr

/-- Mutable state of the Gtk::CellRendererProgress child renderer. -/
structure ProgressRendererState where
  value : Int
  text : String
  sensitive : Bool
deriving DecidableEq, Repr

/-- Mutable state of the Gtk::CellRendererPixbuf child renderer. -/
structure IconRendererState where
  gicon : String
  size : GtkIconSizeKind
  sensitive : Bool
deriving DecidableEq, Repr

/-- The three child renderers owned by TorrentCellRenderer::Impl. -/
structure CRState where
  textR : TextRendererState
  progR : ProgressRendererState
  iconR : IconRendererState
deriving DecidableEq, Repr

/-- External collaborators, kept abstract: libtransmission formatting helpers
(tr_strlsize, tr_strpercent, tr_strlratio, tr_format_time_left,
tr_formatter_speed_KBps, tr_truncd with fmt), the mime-type lookup, the
Pango/GTK preferred-size measurements of the child renderers against the host
widget, and the cairo device-to-user transform of the output context. -/
structure Externals where
  strlsize : Nat → String
  strpercent : Rat → String
  strlratio : Rat → String
  formatTimeLeft : Int → String
  speedKBps : Rat → String
  truncd : Rat → Nat → String
  mimeForFilename : String → String
  measureText : TextRendererState → Size
  measureIcon : IconRendererState → Size
  deviceToUserX : Rat
  deviceToUserY : Rat

def DefaultBarHeight : Int := 12

def CompactBarWidth : Int := 50

def SmallScale : Rat := 9 / 10

/-- Modelled from the spec: padding constants from HigWorkarea.h, which is not
under src/; the claims do not depend on the concrete values. -/
def GUI_PAD : Int := 6

/-- Modelled from the spec: small padding constant from HigWorkarea.h, which
is not under src/; the claims do not depend on the concrete value. -/
def GUI_PAD_SMALL : Int := 3

/-- Modelled from the spec: fallback mime type from IconCache.h, which is not
under src/; the claims do not depend on the concrete value. -/
def UnknownMimeType : String := "unknown"

/-- Modelled from the spec: directory mime type from IconCache.h, which is not
under src/; the claims do not depend on the concrete value. -/
def DirectoryMimeType : String := "folder"

/-- getProgressString from the source: picks one of five progress formats and
optionally appends a time-remaining suffix.  The stat snapshot is received
through a const pointer; it is returned unchanged alongside the string. -/
def getProgressString (e : Externals) (tor : TrTorrent) (total_size : Nat) (st : TrStat) :
    String × TrStat :=
  let isDone : Bool := st.leftUntilDone == 0
  let haveTotal : Nat := st.haveUnchecked + st.haveValid
  let isSeed : Bool := decide (total_size ≤ st.haveValid)
  let hasSeedRatio : Bool := (tr_torrentGetSeedRatio tor).isSome
  let seedRatio : Rat := (tr_torrentGetSeedRatio tor).getD 0
  let gstr : String :=
    if !isDone then
      e.strlsize haveTotal ++ " of " ++ e.strlsize st.sizeWhenDone ++ " (" ++
        e.strpercent (st.percentDone * 100) ++ "%)"
    else if !isSeed && hasSeedRatio then
      e.strlsize haveTotal ++ " of " ++ e.strlsize total_size ++ " (" ++
        e.strpercent (st.percentComplete * 100) ++ "%), uploaded " ++
        e.strlsize st.uploadedEver ++ " (Ratio: " ++ e.strlratio st.ratio ++
        ", Goal: " ++ e.strlratio seedRatio ++ ")"
    else if !isSeed then
      e.strlsize haveTotal ++ " of " ++ e.strlsize total_size ++ " (" ++
        e.strpercent (st.percentComplete * 100) ++ "%), uploaded " ++
        e.strlsize st.uploadedEver ++ " (Ratio: " ++ e.strlratio st.ratio ++ ")"
    else if hasSeedRatio then
      e.strlsize total_size ++ ", uploaded " ++ e.strlsize st.uploadedEver ++
        " (Ratio: " ++ e.strlratio st.ratio ++ ", Goal: " ++
        e.strlratio seedRatio ++ ")"
    else
      e.strlsize total_size ++ ", uploaded " ++ e.strlsize st.uploadedEver ++
        " (Ratio: " ++ e.strlratio st.ratio ++ ")"
  let gstr :=
    if st.activity == TrTorrentActivity.download ||
        (hasSeedRatio && st.activity == TrTorrentActivity.seed) then
      gstr ++ " - " ++
        (if st.eta < 0 then "Remaining time unknown" else e.formatTimeLeft st.eta)
    else gstr
  (gstr, st)

/-- getShortTransferString from the source. -/
def getShortTransferString (e : Externals) (tor : TrTorrent) (st : TrStat) (up dn : Rat) :
    String × TrStat :=
  let have_meta := tr_torrentHasMetadata tor
  if have_meta && (decide (0 < st.peersSendingToUs) || decide (0 < st.webseedsSendingToUs)) then
    (e.speedKBps dn ++ " ▼  " ++ e.speedKBps up ++ " ▲", st)
  else if have_meta && decide (0 < st.peersGettingFromUs) then
    (e.speedKBps up ++ " ▲", st)
  else if st.isStalled then
    ("Stalled", st)
  else
    ("", st)

/-- getShortStatusString from the source. -/
def getShortStatusString (e : Externals) (tor : TrTorrent) (st : TrStat) (up dn : Rat) :
    String × TrStat :=
  match st.activity with
  | TrTorrentActivity.stopped =>
      ((if st.finished then "Finished" else "Paused"), st)
  | TrTorrentActivity.checkWait => ("Queued for verification", st)
  | TrTorrentActivity.downloadWait => ("Queued for download", st)
  | TrTorrentActivity.seedWait => ("Queued for seeding", st)
  | TrTorrentActivity.check =>
      ("Verifying local data (" ++ e.truncd (st.recheckProgress * 100) 1 ++ "% tested)", st)
  | TrTorrentActivity.download =>
      let r := getShortTransferString e tor st up dn
      (r.1 ++ " " ++ ("Ratio: " ++ e.strlratio r.2.ratio), r.2)
  | TrTorrentActivity.seed =>
      let r := getShortTransferString e tor st up dn
      (r.1 ++ " " ++ ("Ratio: " ++ e.strlratio r.2.ratio), r.2)

/-- getErrorString from the source: a string exactly for the three error
kinds, nullopt otherwise. -/
def getErrorString (st : TrStat) : Option String × TrStat :=
  match st.error with
  | TrStatErrtype.trackerWarning =>
      (some ("Tracker warning: \x27" ++ st.errorString ++ "\x27"), st)
  | TrStatErrtype.trackerError =>
      (some ("Tracker Error: \x27" ++ st.errorString ++ "\x27"), st)
  | TrStatErrtype.localError =>
      (some ("Local error: \x27" ++ st.errorString ++ "\x27"), st)
  | TrStatErrtype.ok => (none, st)

/-- getActivityString from the source.  The ngettext plural choice is the
English rule: singular exactly when the count is 1. -/
def getActivityString (e : Externals) (tor : TrTorrent) (st : TrStat) (up dn : Rat) :
    String × TrStat :=
  match st.activity with
  | TrTorrentActivity.stopped => getShortStatusString e tor st up dn
  | TrTorrentActivity.checkWait => getShortStatusString e tor st up dn
  | TrTorrentActivity.check => getShortStatusString e tor st up dn
  | TrTorrentActivity.downloadWait => getShortStatusString e tor st up dn
  | TrTorrentActivity.seedWait => getShortStatusString e tor st up dn
  | TrTorrentActivity.download =>
      if !tr_torrentHasMetadata tor then
        ("Downloading metadata from " ++ toString st.peersConnected ++
          (if st.peersConnected == 1 then " connected peer (" else " connected peers (") ++
          e.strpercent (st.metadataPercentComplete * 100) ++ "% done)", st)
      else if decide (st.peersSendingToUs ≠ 0) && decide (st.webseedsSendingToUs ≠ 0) then
        ("Downloading from " ++ toString (st.peersSendingToUs + st.webseedsSendingToUs) ++
          " of " ++ toString (st.peersConnected + st.webseedsSendingToUs) ++
          (if st.peersConnected + st.webseedsSendingToUs == 1 then
            " connected peer and webseed" else " connected peers and webseeds"), st)
      else if decide (st.webseedsSendingToUs ≠ 0) then
        ("Downloading from " ++ toString st.webseedsSendingToUs ++
          (if st.webseedsSendingToUs == 1 then " webseed" else " webseeds"), st)
      else
        ("Downloading from " ++ toString st.peersSendingToUs ++ " of " ++
          toString st.peersConnected ++
          (if st.peersConnected == 1 then " connected peer" else " connected peers"), st)
  | TrTorrentActivity.seed =>
      ("Seeding to " ++ toString st.peersGettingFromUs ++ " of " ++
        toString st.peersConnected ++
        (if st.peersConnected == 1 then " connected peer" else " connected peers"), st)

/-- The transfer suffix of getStatusString: appended when the activity is not
one of the five waiting/checking/stopped states and the short transfer string
is nonempty. -/
def statusSuffix (e : Externals) (tor : TrTorrent) (st : TrStat) (up dn : Rat) : String :=
  if st.activity ≠ TrTorrentActivity.checkWait ∧ st.activity ≠ TrTorrentActivity.check ∧
      st.activity ≠ TrTorrentActivity.downloadWait ∧
      st.activity ≠ TrTorrentActivity.seedWait ∧
      st.activity ≠ TrTorrentActivity.stopped then
    let buf := (getShortTransferString e tor st up dn).1
    if buf.isEmpty then "" else " - " ++ buf
  else ""

/-- getStatusString from the source: the error string when present and not
ignored, the activity string otherwise, then the transfer suffix. -/
def getStatusString (e : Externals) (tor : TrTorrent) (st : TrStat) (up dn : Rat)
    (ignore_errors : Bool) : String × TrStat :=
  let err := if ignore_errors then (none, st) else getErrorString st
  let act := getActivityString e tor err.2 up dn
  let status := err.1.getD act.1
  (status ++ statusSuffix e tor act.2 up dn, act.2)

/-- A Gdk::Rectangle. -/
structure Rect where
  x : Int
  y : Int
  width : Int
  height : Int
deriving DecidableEq, Repr

/-- The Gtk::CellRendererState flag bits this component reads or sets. -/
structure CellFlags where
  selected : Bool
  insensitive : Bool
deriving DecidableEq, Repr

/-- The five GObject properties of the renderer, together with the padding of
the Gtk::CellRenderer base obtained through get_padding. -/
structure RendererProps where
  torrent : Option TrTorrent
  barHeight : Int
  uploadSpeedKBps : Rat
  downloadSpeedKBps : Rat
  compact : Bool
  xpad : Int
  ypad : Int
deriving DecidableEq, Repr

/-- get_icon from the source: picks the mime type from the file count and the
first file name, then resolves it to an icon. -/
def get_icon (e : Externals) (tor : TrTorrent) : String :=
  let n_files := tr_torrentFileCount tor
  if n_files == 0 then UnknownMimeType
  else if decide (1 < n_files) then DirectoryMimeType
  else
    let name := tor.files.headD ""
    if name.contains (Char.ofNat 47) then DirectoryMimeType
    else e.mimeForFilename name

/-- set_icon from the source: sets the gicon and icon-size properties of the
pixbuf renderer. -/
def set_icon (r : IconRendererState) (icon : String) (icon_size : GtkIconSizeKind) :
    IconRendererState :=
  { r with gicon := icon, size := icon_size }

/-- The fill area: the background area inset by the padding of the renderer. -/
def insetRect (r : Rect) (xpad ypad : Int) : Rect :=
  ⟨r.x + xpad, r.y + ypad, r.width - xpad * 2, r.height - ypad * 2⟩

/-- The text-renderer foreground update both render paths perform: red when
the torrent has an error and the cell is not selected, unset otherwise. -/
def updateTextForeground (t : TextRendererState) (st : TrStat) (flags : CellFlags) :
    TextRendererState :=
  if st.error != TrStatErrtype.ok && !flags.selected then
    { t with foreground := some "red" }
  else
    { t with foreground := none }

/-- Both render paths force the INSENSITIVE flag for stopped torrents. -/
def flagsAfterStopped (st : TrStat) (flags : CellFlags) : CellFlags :=
  if st.activity == TrTorrentActivity.stopped then { flags with insensitive := true }
  else flags

/-- get_size_compact from the source.  The result carries the (width, height)
pair written to the out parameters, the updated child-renderer state, and the
torrent and property values handed back unchanged (const discipline). -/
def get_size_compact (e : Externals) (props : RendererProps) (tor : TrTorrent)
    (crs : CRState) : (Int × Int) × CRState × TrTorrent × RendererProps :=
  let st := tr_torrentStatCached tor
  let icon := get_icon e tor
  let name := tr_torrentName tor
  let statr := getShortStatusString e tor st props.uploadSpeedKBps props.downloadSpeedKBps
  let iconR := set_icon crs.iconR icon CompactIconSize
  let icon_size := e.measureIcon iconR
  let textR := { crs.textR with text := name, ellipsize := PangoEllipsizeMode.noneMode, scale := 1 }
  let name_size := e.measureText textR
  let textR := { textR with text := statr.1, scale := SmallScale }
  let stat_size := e.measureText textR
  let width := props.xpad * 2 + icon_size.width + GUI_PAD + CompactBarWidth + GUI_PAD +
    stat_size.width
  let height := props.ypad * 2 + max name_size.height props.barHeight
  ((width, height), { crs with iconR := iconR, textR := textR },
    { tor with st := statr.2 }, props)

/-- get_size_full from the source. -/
def get_size_full (e : Externals) (props : RendererProps) (tor : TrTorrent)
    (crs : CRState) : (Int × Int) × CRState × TrTorrent × RendererProps :=
  let st := tr_torrentStatCached tor
  let total_size := tr_torrentTotalSize tor
  let icon := get_icon e tor
  let name := tr_torrentName tor
  let statr := getStatusString e tor st props.uploadSpeedKBps props.downloadSpeedKBps true
  let progr := getProgressString e tor total_size statr.2
  let iconR := set_icon crs.iconR icon FullIconSize
  let icon_size := e.measureIcon iconR
  let textR := { crs.textR with text := name, weight := PangoWeight.bold, scale := 1, ellipsize := PangoEllipsizeMode.noneMode }
  let name_size := e.measureText textR
  let textR := { textR with text := progr.1, weight := PangoWeight.normal, scale := SmallScale }
  let prog_size := e.measureText textR
  let textR := { textR with text := statr.1 }
  let stat_size := e.measureText textR
  let width := props.xpad * 2 + icon_size.width + GUI_PAD + max prog_size.width stat_size.width
  let height := props.ypad * 2 + name_size.height + prog_size.height + GUI_PAD_SMALL +
    props.barHeight + GUI_PAD_SMALL + stat_size.height
  ((width, height), { crs with iconR := iconR, textR := textR },
    { tor with st := progr.2 }, props)

/-- get_preferred_width_vfunc from the source: under the non-null torrent
guard, both the minimum and the natural width are set to the width computed
by the mode-selected size function; with a null torrent the out parameters
are left as they were. -/
def get_preferred_width_vfunc (e : Externals) (props : RendererProps) (crs : CRState)
    (minimum_width natural_width : Int) : (Int × Int) × CRState :=
  match props.torrent with
  | none => ((minimum_width, natural_width), crs)
  | some tor =>
      let r := if props.compact then get_size_compact e props tor crs
               else get_size_full e props tor crs
      ((r.1.1, r.1.1), r.2.1)

/-- get_preferred_height_vfunc from the source. -/
def get_preferred_height_vfunc (e : Externals) (props : RendererProps) (crs : CRState)
    (minimum_height natural_height : Int) : (Int × Int) × CRState :=
  match props.torrent with
  | none => ((minimum_height, natural_height), crs)
  | some tor =>
      let r := if props.compact then get_size_compact e props tor crs
               else get_size_full e props tor crs
      ((r.1.2, r.1.2), r.2.1)

/-- get_percent_done from the source: the fraction shown by the progress bar
and the seed flag written through the out parameter. -/
def get_percent_done (tor : TrTorrent) (st : TrStat) : Rat × Bool :=
  if st.activity = TrTorrentActivity.seed ∧ (tr_torrentGetSeedRatio tor).isSome then
    (max 0 st.seedRatioPercentDone, true)
  else
    (max 0 st.percentDone, false)

/-- An RGBA color; only the red/green/blue components are read. -/
structure GdkRGBA where
  red : Rat
  green : Rat
  blue : Rat
deriving DecidableEq, Repr

/-- The named CSS color steelblue. -/
def steelblue_color : GdkRGBA := ⟨70 / 255, 130 / 255, 180 / 255⟩

/-- The named CSS color forestgreen. -/
def forestgreen_color : GdkRGBA := ⟨34 / 255, 139 / 255, 34 / 255⟩

/-- The named CSS color silver. -/
def silver_color : GdkRGBA := ⟨192 / 255, 192 / 255, 192 / 255⟩

/-- get_progress_bar_color from the source. -/
def get_progress_bar_color (st : TrStat) : GdkRGBA :=
  if st.activity = TrTorrentActivity.download then steelblue_color
  else if st.activity = TrTorrentActivity.seed then forestgreen_color
  else silver_color

/-- Truncation toward zero, the semantics of a C cast from double to int. -/
def ratTruncToInt (q : Rat) : Int :=
  if q < 0 then -((-q).floor) else q.floor

/-- Cairo image-surface pixel formats used by the pipeline. -/
inductive CairoSurfaceFormat
| argb32
| a8
deriving DecidableEq, Repr

/-- Cairo compositing operators used by the pipeline. -/
inductive CairoOperator
| clear
| destOver
| hslColor
deriving DecidableEq, Repr

/-- The surfaces the pipeline refers to: the fresh ARGB32 scratch surface the
progress renderer draws into, the A8 mask surface, and the background
sub-surface of the output target covering the target area. -/
inductive SurfRef
| tempSurf
| maskSurf
| bgSurf
deriving DecidableEq, Repr

/-- One drawing command issued to a cairo context. -/
inductive CairoCmd
| setSourceRGB (r g b : Rat)
| setSourceSurf (s : SurfRef) (x y : Rat)
| rectangle (x y w h : Int)
| fill
| setOperator (op : CairoOperator)
| maskSurface (s : SurfRef) (x y : Rat)
| renderCell (prog : ProgressRendererState) (background cell : Rect) (flags : CellFlags)
deriving DecidableEq, Repr

/-- A freshly created image surface together with the commands run on its
private context. -/
structure MaskSurfaceResult where
  fmt : CairoSurfaceFormat
  w : Int
  h : Int
  cmds : List CairoCmd
deriving DecidableEq, Repr

/-- get_mask_surface from the source: an A8 surface with the width and height of the area
is filled black and then cleared through the given surface, so it records the
fully transparent areas of that surface. -/
def get_mask_surface (surface : SurfRef) (area : Rect) : MaskSurfaceResult :=
  { fmt := CairoSurfaceFormat.a8, w := area.width, h := area.height,
    cmds :=
      [ CairoCmd.setSourceRGB 0 0 0,
        CairoCmd.rectangle area.x area.y area.width area.height,
        CairoCmd.fill,
        CairoCmd.setOperator CairoOperator.clear,
        CairoCmd.maskSurface surface area.x area.y,
        CairoCmd.fill ] }

/-- The mask surface built by adjust_progress_bar_hue together with the
commands it runs on the context that holds the rendered indicator. -/
structure HueAdjustResult where
  maskRes : MaskSurfaceResult
  cmds : List CairoCmd
deriving DecidableEq, Repr

/-- adjust_progress_bar_hue from the source, with ctx_target the surface the
given context draws to (its get_target). -/
def adjust_progress_bar_hue (bg_surface : SurfRef) (ctx_target : SurfRef)
    (color : GdkRGBA) (area : Rect) (bg_x bg_y : Rat) : HueAdjustResult :=
  { maskRes := get_mask_surface ctx_target area,
    cmds :=
      [ CairoCmd.setSourceSurf bg_surface bg_x bg_y,
        CairoCmd.setOperator CairoOperator.destOver,
        CairoCmd.rectangle area.x area.y area.width area.height,
        CairoCmd.fill,
        CairoCmd.setSourceRGB color.red color.green color.blue,
        CairoCmd.setOperator CairoOperator.hslColor,
        CairoCmd.rectangle area.x area.y area.width area.height,
        CairoCmd.fill,
        CairoCmd.setOperator CairoOperator.clear,
        CairoCmd.maskSurface SurfRef.maskSurf area.x area.y,
        CairoCmd.fill ] }

/-- The full output of render_progress_bar: the format and size of the scratch surface, and
dimensions, the commands run on the scratch context (drawing the progress
renderer, then the hue adjustment), the rectangle of the output target the
background sub-surface covers, the mask surface, and the commands run on the
output context (copying the result to the position of the target area). -/
structure ProgressBarRender where
  tempFmt : CairoSurfaceFormat
  tempW : Int
  tempH : Int
  tempCmds : List CairoCmd
  bgSurfaceArea : Rect
  maskRes : MaskSurfaceResult
  outCmds : List CairoCmd
deriving DecidableEq, Repr

/-- render_progress_bar from the source (the cairo render path): the progress
renderer is drawn into a fresh ARGB32 surface with the width and height of the area, the
hue adjustment recolors it against the background sub-surface, and the result
is copied to the output at the position of the area. -/
def render_progress_bar (e : Externals) (progR : ProgressRendererState) (area : Rect)
    (flags : CellFlags) (color : GdkRGBA) : ProgressBarRender :=
  let temp_area : Rect := ⟨0, 0, area.width, area.height⟩
  let dx := e.deviceToUserX
  let dy := e.deviceToUserY
  let hue := adjust_progress_bar_hue SurfRef.bgSurf SurfRef.tempSurf color temp_area
    (dx - (area.x : Rat)) (dy - (area.y : Rat))
  { tempFmt := CairoSurfaceFormat.argb32,
    tempW := area.width,
    tempH := area.height,
    tempCmds := CairoCmd.renderCell progR temp_area temp_area flags :: hue.cmds,
    bgSurfaceArea := ⟨area.x, area.y, area.width, area.height⟩,
    maskRes := hue.maskRes,
    outCmds :=
      [ CairoCmd.setSourceSurf SurfRef.tempSurf area.x area.y,
        CairoCmd.rectangle area.x area.y area.width area.height,
        CairoCmd.fill ] }

/-- One high-level draw call issued by a render path: a child renderer drawn
into an area with the flags in effect, or the progress bar pipeline. -/
inductive RenderOp
| icon (s : IconRendererState) (area : Rect) (flags : CellFlags)
| bar (s : ProgressRendererState) (color : GdkRGBA) (area : Rect) (flags : CellFlags)
| text (s : TextRendererState) (area : Rect) (flags : CellFlags)
deriving DecidableEq, Repr

/-- The area a draw call covers. -/
def RenderOp.area : RenderOp → Rect
| RenderOp.icon _ a _ => a
| RenderOp.bar _ _ a _ => a
| RenderOp.text _ a _ => a

/-- A tag distinguishing the three draw-call kinds. -/
inductive RenderOpKind
| iconK
| barK
| textK
deriving DecidableEq, Repr

/-- The kind of a draw call. -/
def RenderOp.kind : RenderOp → RenderOpKind
| RenderOp.icon _ _ _ => RenderOpKind.iconK
| RenderOp.bar _ _ _ _ => RenderOpKind.barK
| RenderOp.text _ _ _ => RenderOpKind.textK

/-- The text a text draw call displays. -/
def RenderOp.textShown : RenderOp → Option String
| RenderOp.text s _ _ => some s.text
| _ => none

/-- The text the progress renderer displays in a bar draw call. -/
def RenderOp.barText : RenderOp → Option String
| RenderOp.bar s _ _ _ => some s.text
| _ => none

/-- render_compact from the source: lays out icon, progress bar, status and
name inside the padding-inset fill area, mirrored by text direction, and
issues the four draw calls.  rtl is the DIR_RTL bit of the widget state. -/
def render_compact (e : Externals) (props : RendererProps) (tor : TrTorrent) (rtl : Bool)
    (background_area : Rect) (flags : CellFlags) (crs : CRState) :
    List RenderOp × CRState × TrTorrent × RendererProps :=
  let st := tr_torrentStatCached tor
  let active : Bool := st.activity != TrTorrentActivity.stopped &&
    st.activity != TrTorrentActivity.downloadWait &&
    st.activity != TrTorrentActivity.seedWait
  let pdres := get_percent_done tor st
  let sensitive : Bool := active || st.error != TrStatErrtype.ok
  let flags := flagsAfterStopped st flags
  let textR := updateTextForeground crs.textR st flags
  let icon := get_icon e tor
  let name := tr_torrentName tor
  let progress_color := get_progress_bar_color st
  let statr := getShortStatusString e tor st props.uploadSpeedKBps props.downloadSpeedKBps
  let fill_area := insetRect background_area props.xpad props.ypad
  let iconR := set_icon crs.iconR icon CompactIconSize
  let icon_width := (e.measureIcon iconR).width
  let textR := { textR with text := statr.1, ellipsize := PangoEllipsizeMode.noneMode, scale := SmallScale }
  let stat_width := (e.measureText textR).width
  let name_width := fill_area.width - icon_width - stat_width - CompactBarWidth - GUI_PAD * 3
  let icon_area0 := { fill_area with width := icon_width }
  let prog_area0 := { fill_area with width := CompactBarWidth }
  let stat_area0 := { fill_area with width := stat_width }
  let name_area0 := { fill_area with width := name_width }
  let areas :=
    if !rtl then
      let icon_area := { icon_area0 with x := fill_area.x }
      let prog_area := { prog_area0 with x := fill_area.x + fill_area.width - prog_area0.width }
      let stat_area := { stat_area0 with x := prog_area.x - stat_area0.width - GUI_PAD }
      let name_area := { name_area0 with x := icon_area.x + icon_area.width + GUI_PAD }
      (icon_area, prog_area, stat_area, name_area)
    else
      let icon_area := { icon_area0 with x := fill_area.x + fill_area.width - icon_area0.width }
      let prog_area := { prog_area0 with x := fill_area.x }
      let stat_area := { stat_area0 with x := prog_area.x + prog_area.width + GUI_PAD }
      let name_area := { name_area0 with x := stat_area.x + stat_area.width + GUI_PAD }
      (icon_area, prog_area, stat_area, name_area)
  let iconR := { set_icon iconR icon CompactIconSize with sensitive := sensitive }
  let percent_done := ratTruncToInt (pdres.1 * 100)
  let progR : ProgressRendererState :=
    { value := percent_done, text := toString percent_done ++ "%", sensitive := sensitive }
  let statTextR := { textR with text := statr.1, scale := SmallScale, ellipsize := PangoEllipsizeMode.endMode }
  let nameTextR := { statTextR with text := name, scale := 1 }
  ([ RenderOp.icon iconR areas.1 flags,
     RenderOp.bar progR progress_color areas.2.1 flags,
     RenderOp.text statTextR areas.2.2.1 flags,
     RenderOp.text nameTextR areas.2.2.2 flags ],
   { textR := nameTextR, progR := progR, iconR := iconR },
   { tor with st := statr.2 }, props)

/-- render_full from the source: name, progress string, progress bar and
status stacked under each other beside the icon, and the five draw calls. -/
def render_full (e : Externals) (props : RendererProps) (tor : TrTorrent) (rtl : Bool)
    (background_area : Rect) (flags : CellFlags) (crs : CRState) :
    List RenderOp × CRState × TrTorrent × RendererProps :=
  let st := tr_torrentStatCached tor
  let total_size := tr_torrentTotalSize tor
  let active : Bool := st.activity != TrTorrentActivity.stopped &&
    st.activity != TrTorrentActivity.downloadWait &&
    st.activity != TrTorrentActivity.seedWait
  let pdres := get_percent_done tor st
  let sensitive : Bool := active || st.error != TrStatErrtype.ok
  let flags := flagsAfterStopped st flags
  let textR := updateTextForeground crs.textR st flags
  let icon := get_icon e tor
  let name := tr_torrentName tor
  let progress_color := get_progress_bar_color st
  let progr := getProgressString e tor total_size st
  let statr := getStatusString e tor progr.2 props.uploadSpeedKBps props.downloadSpeedKBps false
  let iconR := set_icon crs.iconR icon FullIconSize
  let isz := e.measureIcon iconR
  let textR := { textR with text := name, weight := PangoWeight.bold, ellipsize := PangoEllipsizeMode.noneMode, scale := 1 }
  let name_h := (e.measureText textR).height
  let textR := { textR with text := progr.1, weight := PangoWeight.normal, scale := SmallScale }
  let prog_h := (e.measureText textR).height
  let textR := { textR with text := statr.1 }
  let stat_h := (e.measureText textR).height
  let fill_area := insetRect background_area props.xpad props.ypad
  let icon_y := fill_area.y + (fill_area.height - isz.height) / 2
  let name_w := fill_area.width - GUI_PAD - isz.width
  let xs :=
    if !rtl then (fill_area.x, fill_area.x + fill_area.width - name_w)
    else (fill_area.x + fill_area.width - isz.width, fill_area.x)
  let icon_area : Rect := ⟨xs.1, icon_y, isz.width, isz.height⟩
  let name_area : Rect := ⟨xs.2, fill_area.y, name_w, name_h⟩
  let prog_area : Rect := ⟨name_area.x, name_area.y + name_area.height, name_area.width, prog_h⟩
  let prct_area : Rect := ⟨prog_area.x, prog_area.y + prog_area.height + GUI_PAD_SMALL, prog_area.width, props.barHeight⟩
  let stat_area : Rect := ⟨prct_area.x, prct_area.y + prct_area.height + GUI_PAD_SMALL, prct_area.width, stat_h⟩
  let iconR := { set_icon iconR icon FullIconSize with sensitive := sensitive }
  let nameTextR := { textR with text := name, scale := 1, ellipsize := PangoEllipsizeMode.endMode, weight := PangoWeight.bold }
  let progTextR := { nameTextR with text := progr.1, scale := SmallScale, weight := PangoWeight.normal }
  let progR : ProgressRendererState :=
    { value := ratTruncToInt (pdres.1 * 100), text := "", sensitive := sensitive }
  let statTextR := { progTextR with text := statr.1 }
  ([ RenderOp.icon iconR icon_area flags,
     RenderOp.text nameTextR name_area flags,
     RenderOp.text progTextR prog_area flags,
     RenderOp.bar progR progress_color prct_area flags,
     RenderOp.text statTextR stat_area flags ],
   { textR := statTextR, progR := progR, iconR := iconR },
   { tor with st := statr.2 }, props)

/-- The render vfunc (snapshot_vfunc under gtkmm4, render_vfunc under gtkmm3):
nothing at all is drawn with a null torrent; otherwise the compact property
selects which render path runs. -/
def render_vfunc (e : Externals) (props : RendererProps) (rtl : Bool)
    (background_area : Rect) (flags : CellFlags) (crs : CRState) :
    List RenderOp × CRState :=
  match props.torrent with
  | none => ([], crs)
  | some tor =>
      if props.compact then
        let r := render_compact e props tor rtl background_area flags crs
        (r.1, r.2.1)
      else
        let r := render_full e props tor rtl background_area flags crs
        (r.1, r.2.1)

/-- The five progress formats the specification describes. -/
inductive ProgressFormat
| downloading
| partSeedWithGoal
| partSeedNoGoal
| seedWithGoal
| seedNoGoal
deriving DecidableEq, Repr

/-- Follows the words of the specification (a refinement-side definition):
the format is determined by isDone, isSeed and whether a seed ratio is set —
downloading when not done; otherwise one of the two incomplete-seed formats when
not a seed, by ratio presence; otherwise one of the two seed formats, by
ratio presence. -/
def specProgressFormat (isDone isSeed hasSeedRatio : Bool) : ProgressFormat :=
  if !isDone then ProgressFormat.downloading
  else if !isSeed then
    (if hasSeedRatio then ProgressFormat.partSeedWithGoal else ProgressFormat.partSeedNoGoal)
  else
    (if hasSeedRatio then ProgressFormat.seedWithGoal else ProgressFormat.seedNoGoal)

/-- The body text of each of the five formats, written once per format. -/
def specProgressBody (e : Externals) (tor : TrTorrent) (total_size : Nat) (st : TrStat) :
    ProgressFormat → String
| ProgressFormat.downloading =>
    e.strlsize (st.haveUnchecked + st.haveValid) ++ " of " ++ e.strlsize st.sizeWhenDone ++
      " (" ++ e.strpercent (st.percentDone * 100) ++ "%)"
| ProgressFormat.partSeedWithGoal =>
    e.strlsize (st.haveUnchecked + st.haveValid) ++ " of " ++ e.strlsize total_size ++
      " (" ++ e.strpercent (st.percentComplete * 100) ++ "%), uploaded " ++
      e.strlsize st.uploadedEver ++ " (Ratio: " ++ e.strlratio st.ratio ++ ", Goal: " ++
      e.strlratio ((tr_torrentGetSeedRatio tor).getD 0) ++ ")"
| ProgressFormat.partSeedNoGoal =>
    e.strlsize (st.haveUnchecked + st.haveValid) ++ " of " ++ e.strlsize total_size ++
      " (" ++ e.strpercent (st.percentComplete * 100) ++ "%), uploaded " ++
      e.strlsize st.uploadedEver ++ " (Ratio: " ++ e.strlratio st.ratio ++ ")"
| ProgressFormat.seedWithGoal =>
    e.strlsize total_size ++ ", uploaded " ++ e.strlsize st.uploadedEver ++
      " (Ratio: " ++ e.strlratio st.ratio ++ ", Goal: " ++
      e.strlratio ((tr_torrentGetSeedRatio tor).getD 0) ++ ")"
| ProgressFormat.seedNoGoal =>
    e.strlsize total_size ++ ", uploaded " ++ e.strlsize st.uploadedEver ++
      " (Ratio: " ++ e.strlratio st.ratio ++ ")"

/-- Follows the words of the specification (a refinement-side definition):
the time-remaining suffix is appended exactly when the activity is download,
or a seed ratio is set and the activity is seed; it reads Remaining time
unknown for a negative eta and the formatted time left otherwise. -/
def specTimeLeftSuffix (e : Externals) (st : TrStat) (hasSeedRatio : Bool) : String :=
  if st.activity = TrTorrentActivity.download ∨
      (hasSeedRatio = true ∧ st.activity = TrTorrentActivity.seed) then
    " - " ++ (if st.eta < 0 then "Remaining time unknown" else e.formatTimeLeft st.eta)
  else ""

/-- The text-renderer state under which render_compact measures the short
status string (foreground possibly red, small scale, no ellipsizing). -/
def compactRenderStatState (e : Externals) (props : RendererProps) (tor : TrTorrent)
    (flags : CellFlags) (crs : CRState) : TextRendererState :=
  { updateTextForeground crs.textR (tr_torrentStatCached tor) (flagsAfterStopped (tr_torrentStatCached tor) flags) with
    text := (getShortStatusString e tor (tr_torrentStatCached tor) props.uploadSpeedKBps props.downloadSpeedKBps).1,
    ellipsize := PangoEllipsizeMode.noneMode, scale := SmallScale }

/-- The preferred width of the icon renderer in compact mode. -/
def compactIconWidth (e : Externals) (tor : TrTorrent) (crs : CRState) : Int :=
  (e.measureIcon (set_icon crs.iconR (get_icon e tor) CompactIconSize)).width

/-- The preferred width of the short status string in render_compact. -/
def compactStatWidth (e : Externals) (props : RendererProps) (tor : TrTorrent)
    (flags : CellFlags) (crs : CRState) : Int :=
  (e.measureText (compactRenderStatState e props tor flags crs)).width

/-- A concrete externals record used by the witness theorems. -/
def egExt : Externals :=
  { strlsize := fun n => toString n ++ "B",
    strpercent := fun q => toString q.num,
    strlratio := fun q => toString q.num,
    formatTimeLeft := fun n => toString n ++ "s",
    speedKBps := fun q => toString q.num,
    truncd := fun q _ => toString q.num,
    mimeForFilename := fun s => s,
    measureText := fun t => ⟨(t.text.length : Int), 11⟩,
    measureIcon := fun _ => ⟨16, 16⟩,
    deviceToUserX := 0,
    deviceToUserY := 0 }

/-- A concrete downloading statistics snapshot used by the witness theorems. -/
def egStat : TrStat :=
  { activity := TrTorrentActivity.download, error := TrStatErrtype.ok, errorString := "",
    leftUntilDone := 10, sizeWhenDone := 100, haveUnchecked := 0, haveValid := 90,
    uploadedEver := 5, percentDone := 9 / 10, percentComplete := 9 / 10,
    seedRatioPercentDone := 1 / 2, metadataPercentComplete := 1, recheckProgress := 0,
    ratio := 1 / 2, eta := 60, peersConnected := 3, peersSendingToUs := 2,
    webseedsSendingToUs := 0, peersGettingFromUs := 1, isStalled := false,
    finished := false }

/-- A concrete snapshot with a tracker warning, for the error-path witness. -/
def egStatErr : TrStat := { egStat with error := TrStatErrtype.trackerWarning, errorString := "boom" }

/-- A concrete torrent used by the witness theorems. -/
def egTor : TrTorrent :=
  { name := "example.iso", totalSize := 100, hasMetadata := true, seedRatio := some 2,
    files := ["example.iso"], st := egStat }

/-- Concrete child-renderer state used by the witness theorems. -/
def egCRS : CRState :=
  { textR := { text := "", scale := 1, weight := PangoWeight.normal,
               ellipsize := PangoEllipsizeMode.noneMode, foreground := none },
    progR := { value := 0, text := "", sensitive := true },
    iconR := { gicon := "", size := GtkIconSizeKind.menu, sensitive := true } }

/-- Concrete renderer properties (compact mode, torrent present). -/
def egProps : RendererProps :=
  { torrent := some egTor, barHeight := 12, uploadSpeedKBps := 1, downloadSpeedKBps := 2,
    compact := true, xpad := 2, ypad := 2 }

/-- Concrete renderer properties with a null torrent. -/
def egPropsNull : RendererProps := { egProps with torrent := none }

/-- A concrete background area. -/
def egRect : Rect := ⟨0, 0, 400, 20⟩

/-- Concrete cell flags (unselected, sensitive). -/
def egFlags : CellFlags := ⟨false, false⟩

/-- The text-renderer state under which get_size_compact measures the name. -/
def compactNameSizeState (tor : TrTorrent) (crs : CRState) : TextRendererState :=
  { crs.textR with text := tr_torrentName tor, ellipsize := PangoEllipsizeMode.noneMode, scale := 1 }

/-- The text-renderer state under which get_size_compact measures the short status. -/
def compactStatSizeState (e : Externals) (props : RendererProps) (tor : TrTorrent) (crs : CRState) : TextRendererState :=
  { crs.textR with text := (getShortStatusString e tor (tr_torrentStatCached tor) props.uploadSpeedKBps props.downloadSpeedKBps).1, ellipsize := PangoEllipsizeMode.noneMode, scale := SmallScale }

/-- The text-renderer state under which get_size_full measures the name. -/
def fullNameSizeState (tor : TrTorrent) (crs : CRState) : TextRendererState :=
  { crs.textR with text := tr_torrentName tor, weight := PangoWeight.bold, scale := 1, ellipsize := PangoEllipsizeMode.noneMode }

/-- The status string shown in full mode by get_size_full (errors ignored). -/
def fullStatusStr (e : Externals) (props : RendererProps) (tor : TrTorrent) : String :=
  (getStatusString e tor (tr_torrentStatCached tor) props.uploadSpeedKBps props.downloadSpeedKBps true).1

/-- The progress string shown in full mode. -/
def fullProgressStr (e : Externals) (tor : TrTorrent) : String :=
  (getProgressString e tor (tr_torrentTotalSize tor) (tr_torrentStatCached tor)).1

/-- The text-renderer state under which get_size_full measures the progress string. -/
def fullProgSizeState (e : Externals) (tor : TrTorrent) (crs : CRState) : TextRendererState :=
  { crs.textR with text := fullProgressStr e tor, weight := PangoWeight.normal, scale := SmallScale, ellipsize := PangoEllipsizeMode.noneMode }

/-- The text-renderer state under which get_size_full measures the status string. -/
def fullStatSizeState (e : Externals) (props : RendererProps) (tor : TrTorrent) (crs : CRState) : TextRendererState :=
  { crs.textR with text := fullStatusStr e props tor, weight := PangoWeight.normal, scale := SmallScale, ellipsize := PangoEllipsizeMode.noneMode }

theorem getProgressString_keeps_stat (e : Externals) (tor : TrTorrent) (total_size : Nat)
    (st : TrStat) : (getProgressString e tor total_size st).2 = st := rfl

theorem getShortTransferString_keeps_stat (e : Externals) (tor : TrTorrent) (st : TrStat)
    (up dn : Rat) : (getShortTransferString e tor st up dn).2 = st := by
  simp only [getShortTransferString]
  split_ifs <;> rfl

theorem getShortStatusString_keeps_stat (e : Externals) (tor : TrTorrent) (st : TrStat)
    (up dn : Rat) : (getShortStatusString e tor st up dn).2 = st := by
  cases hact : st.activity <;>
    simp [getShortStatusString, hact, getShortTransferString_keeps_stat]

theorem getErrorString_keeps_stat (st : TrStat) : (getErrorString st).2 = st := by
  cases herr : st.error <;> simp [getErrorString, herr]

theorem getActivityString_keeps_stat (e : Externals) (tor : TrTorrent) (st : TrStat)
    (up dn : Rat) : (getActivityString e tor st up dn).2 = st := by
  cases hact : st.activity <;>
    simp [getActivityString, hact, getShortStatusString_keeps_stat] <;>
    split_ifs <;> rfl

theorem getStatusString_keeps_stat (e : Externals) (tor : TrTorrent) (st : TrStat)
    (up dn : Rat) (ignore_errors : Bool) :
    (getStatusString e tor st up dn ignore_errors).2 = st := by
  cases ignore_errors <;>
    simp [getStatusString, getErrorString_keeps_stat, getActivityString_keeps_stat]

theorem get_size_compact_keeps_inputs (e : Externals) (props : RendererProps)
    (tor : TrTorrent) (crs : CRState) :
    (get_size_compact e props tor crs).2.2 = (tor, props) := by
  simp [get_size_compact, getShortStatusString_keeps_stat, tr_torrentStatCached]

theorem get_size_full_keeps_inputs (e : Externals) (props : RendererProps)
    (tor : TrTorrent) (crs : CRState) :
    (get_size_full e props tor crs).2.2 = (tor, props) := by
  simp [get_size_full, getStatusString_keeps_stat, getProgressString_keeps_stat,
    tr_torrentStatCached]

theorem render_compact_keeps_inputs (e : Externals) (props : RendererProps)
    (tor : TrTorrent) (rtl : Bool) (bg : Rect) (flags : CellFlags) (crs : CRState) :
    (render_compact e props tor rtl bg flags crs).2.2 = (tor, props) := by
  simp [render_compact, getShortStatusString_keeps_stat, tr_torrentStatCached]

theorem render_full_keeps_inputs (e : Externals) (props : RendererProps)
    (tor : TrTorrent) (rtl : Bool) (bg : Rect) (flags : CellFlags) (crs : CRState) :
    (render_full e props tor rtl bg flags crs).2.2 = (tor, props) := by
  simp [render_full, getStatusString_keeps_stat, getProgressString_keeps_stat,
    tr_torrentStatCached]

/-- C5: every string-building and rendering operation consumes the supplied
statistics snapshot, torrent and renderer property values (including the two
speed properties) read-only: each operation hands them back unchanged, while
it may well update the own state of the child renderers. -/
theorem C5_operations_read_only (e : Externals) (tor : TrTorrent) (st : TrStat)
    (up dn : Rat) (total_size : Nat) (ignore_errors : Bool) (props : RendererProps)
    (crs : CRState) (rtl : Bool) (bg : Rect) (flags : CellFlags) :
    (getProgressString e tor total_size st).2 = st ∧
    (getShortTransferString e tor st up dn).2 = st ∧
    (getShortStatusString e tor st up dn).2 = st ∧
    (getActivityString e tor st up dn).2 = st ∧
    (getStatusString e tor st up dn ignore_errors).2 = st ∧
    (get_size_compact e props tor crs).2.2 = (tor, props) ∧
    (get_size_full e props tor crs).2.2 = (tor, props) ∧
    (render_compact e props tor rtl bg flags crs).2.2 = (tor, props) ∧
    (render_full e props tor rtl bg flags crs).2.2 = (tor, props) :=
  ⟨getProgressString_keeps_stat e tor total_size st,
   getShortTransferString_keeps_stat e tor st up dn,
   getShortStatusString_keeps_stat e tor st up dn,
   getActivityString_keeps_stat e tor st up dn,
   getStatusString_keeps_stat e tor st up dn ignore_errors,
   get_size_compact_keeps_inputs e props tor crs,
   get_size_full_keeps_inputs e props tor crs,
   render_compact_keeps_inputs e props tor rtl bg flags crs,
   render_full_keeps_inputs e props tor rtl bg flags crs⟩

/-- C1: with a torrent present, the compact property alone selects the layout
mode: both preferred-size vfuncs report the get_size_compact result when
compact is true and the get_size_full result when compact is false, and the
render vfunc draws through render_compact respectively render_full. -/
theorem C1_layout_mode_selection (e : Externals) (props : RendererProps) (tor : TrTorrent)
    (crs : CRState) (rtl : Bool) (bg : Rect) (flags : CellFlags) (mw nw mh nh : Int)
    (h : props.torrent = some tor) :
    (get_preferred_width_vfunc e props crs mw nw =
      if props.compact then
        (((get_size_compact e props tor crs).1.1, (get_size_compact e props tor crs).1.1),
          (get_size_compact e props tor crs).2.1)
      else
        (((get_size_full e props tor crs).1.1, (get_size_full e props tor crs).1.1),
          (get_size_full e props tor crs).2.1)) ∧
    (get_preferred_height_vfunc e props crs mh nh =
      if props.compact then
        (((get_size_compact e props tor crs).1.2, (get_size_compact e props tor crs).1.2),
          (get_size_compact e props tor crs).2.1)
      else
        (((get_size_full e props tor crs).1.2, (get_size_full e props tor crs).1.2),
          (get_size_full e props tor crs).2.1)) ∧
    (render_vfunc e props rtl bg flags crs =
      if props.compact then
        ((render_compact e props tor rtl bg flags crs).1,
          (render_compact e props tor rtl bg flags crs).2.1)
      else
        ((render_full e props tor rtl bg flags crs).1,
          (render_full e props tor rtl bg flags crs).2.1)) := by
  refine ⟨?_, ?_, ?_⟩ <;>
    simp only [get_preferred_width_vfunc, get_preferred_height_vfunc, render_vfunc, h] <;>
    by_cases hc : props.compact <;> simp [hc]

theorem C1_layout_mode_selection_witness :
    (get_preferred_width_vfunc egExt egProps egCRS 0 0 =
      if egProps.compact then
        (((get_size_compact egExt egProps egTor egCRS).1.1,
            (get_size_compact egExt egProps egTor egCRS).1.1),
          (get_size_compact egExt egProps egTor egCRS).2.1)
      else
        (((get_size_full egExt egProps egTor egCRS).1.1,
            (get_size_full egExt egProps egTor egCRS).1.1),
          (get_size_full egExt egProps egTor egCRS).2.1)) ∧
    (get_preferred_height_vfunc egExt egProps egCRS 0 0 =
      if egProps.compact then
        (((get_size_compact egExt egProps egTor egCRS).1.2,
            (get_size_compact egExt egProps egTor egCRS).1.2),
          (get_size_compact egExt egProps egTor egCRS).2.1)
      else
        (((get_size_full egExt egProps egTor egCRS).1.2,
            (get_size_full egExt egProps egTor egCRS).1.2),
          (get_size_full egExt egProps egTor egCRS).2.1)) ∧
    (render_vfunc egExt egProps false egRect egFlags egCRS =
      if egProps.compact then
        ((render_compact egExt egProps egTor false egRect egFlags egCRS).1,
          (render_compact egExt egProps egTor false egRect egFlags egCRS).2.1)
      else
        ((render_full egExt egProps egTor false egRect egFlags egCRS).1,
          (render_full egExt egProps egTor false egRect egFlags egCRS).2.1)) :=
  C1_layout_mode_selection egExt egProps egTor egCRS false egRect egFlags 0 0 0 0 rfl

/-- C9: with a null torrent property, both preferred-size vfuncs leave their
out parameters exactly as supplied and the render vfunc draws nothing and
changes nothing; the torrent is only ever inspected through the Option
match, how the embedding renders the non-null pointer guard. -/
theorem C9_null_torrent_no_op (e : Externals) (props : RendererProps) (crs : CRState)
    (rtl : Bool) (bg : Rect) (flags : CellFlags) (mw nw mh nh : Int)
    (h : props.torrent = none) :
    get_preferred_width_vfunc e props crs mw nw = ((mw, nw), crs) ∧
    get_preferred_height_vfunc e props crs mh nh = ((mh, nh), crs) ∧
    render_vfunc e props rtl bg flags crs = ([], crs) := by
  refine ⟨?_, ?_, ?_⟩ <;>
    simp [get_preferred_width_vfunc, get_preferred_height_vfunc, render_vfunc, h]

theorem C9_null_torrent_no_op_witness :
    get_preferred_width_vfunc egExt egPropsNull egCRS 7 9 = ((7, 9), egCRS) ∧
    get_preferred_height_vfunc egExt egPropsNull egCRS 3 4 = ((3, 4), egCRS) ∧
    render_vfunc egExt egPropsNull false egRect egFlags egCRS = ([], egCRS) :=
  C9_null_torrent_no_op egExt egPropsNull egCRS false egRect egFlags 7 9 3 4 rfl

/-- C10: get_percent_done reports the seed-ratio-based fraction with seed set
exactly when the activity is seed and a seed ratio is set, the plain fraction
with seed cleared otherwise, both clamped below at zero; and the bar color is
a function of the activity alone: steelblue for download, forestgreen for
seed, silver otherwise. -/
theorem C10_percent_done_and_color (tor : TrTorrent) (st : TrStat) :
    0 ≤ (get_percent_done tor st).1 ∧
    ((get_percent_done tor st).2 = true ↔
      st.activity = TrTorrentActivity.seed ∧ (tr_torrentGetSeedRatio tor).isSome = true) ∧
    (st.activity = TrTorrentActivity.seed ∧ (tr_torrentGetSeedRatio tor).isSome = true →
      (get_percent_done tor st).1 = max 0 st.seedRatioPercentDone) ∧
    (¬(st.activity = TrTorrentActivity.seed ∧ (tr_torrentGetSeedRatio tor).isSome = true) →
      (get_percent_done tor st).1 = max 0 st.percentDone) ∧
    (get_progress_bar_color st = steelblue_color ↔
      st.activity = TrTorrentActivity.download) ∧
    (get_progress_bar_color st = forestgreen_color ↔
      st.activity = TrTorrentActivity.seed) ∧
    (get_progress_bar_color st = silver_color ↔
      (st.activity ≠ TrTorrentActivity.download ∧ st.activity ≠ TrTorrentActivity.seed)) := by
  have hbf : steelblue_color ≠ forestgreen_color := by
    simp only [steelblue_color, forestgreen_color, ne_eq, GdkRGBA.mk.injEq, not_and]
    intro h
    norm_num at h
  have hbs : steelblue_color ≠ silver_color := by
    simp only [steelblue_color, silver_color, ne_eq, GdkRGBA.mk.injEq, not_and]
    intro h
    norm_num at h
  have hfs : forestgreen_color ≠ silver_color := by
    simp only [forestgreen_color, silver_color, ne_eq, GdkRGBA.mk.injEq, not_and]
    intro h
    norm_num at h
  have hfb : forestgreen_color ≠ steelblue_color := hbf.symm
  have hsb : silver_color ≠ steelblue_color := hbs.symm
  have hsf : silver_color ≠ forestgreen_color := hfs.symm
  refine ⟨?_, ?_, ?_, ?_, ?_, ?_, ?_⟩
  · simp only [get_percent_done]
    split_ifs <;> exact le_max_left 0 _
  · simp only [get_percent_done]
    split_ifs with h <;> simp [h]
  · intro h
    simp [get_percent_done, h.1, h.2]
  · intro h
    simp only [get_percent_done, if_neg h]
  · simp only [get_progress_bar_color]
    split_ifs with h1 h2 <;> simp_all
  · simp only [get_progress_bar_color]
    split_ifs with h1 h2 <;> simp_all
  · simp only [get_progress_bar_color]
    split_ifs with h1 h2 <;> simp_all

theorem C10_percent_done_and_color_witness :
    (get_percent_done egTor egStat).1 = max 0 egStat.percentDone ∧
    get_progress_bar_color egStat = steelblue_color :=
  ⟨(C10_percent_done_and_color egTor egStat).2.2.2.1 (by decide),
   (C10_percent_done_and_color egTor egStat).2.2.2.2.1.mpr rfl⟩

/-- C8: getErrorString yields a string exactly for the tracker-warning,
tracker-error and local-error kinds, and getStatusString without
ignore_errors uses that string in place of the activity string exactly in
those cases, keeping the transfer suffix either way. -/
theorem C8_error_string_selection (e : Externals) (tor : TrTorrent) (st : TrStat)
    (up dn : Rat) :
    ((getErrorString st).1.isSome = true ↔
      st.error = TrStatErrtype.trackerWarning ∨ st.error = TrStatErrtype.trackerError ∨
        st.error = TrStatErrtype.localError) ∧
    (∀ s, (getErrorString st).1 = some s →
      (getStatusString e tor st up dn false).1 = s ++ statusSuffix e tor st up dn) ∧
    ((getErrorString st).1 = none →
      (getStatusString e tor st up dn false).1 =
        (getActivityString e tor st up dn).1 ++ statusSuffix e tor st up dn) := by
  refine ⟨?_, ?_, ?_⟩
  · cases herr : st.error <;> simp [getErrorString, herr]
  · intro s hs
    simp [getStatusString, getErrorString_keeps_stat, getActivityString_keeps_stat, hs]
  · intro hs
    simp [getStatusString, getErrorString_keeps_stat, getActivityString_keeps_stat, hs]

theorem C8_error_string_selection_witness :
    (getStatusString egExt egTor egStatErr 1 2 false).1 =
      ("Tracker warning: \x27" ++ "boom" ++ "\x27") ++
        statusSuffix egExt egTor egStatErr 1 2 :=
  (C8_error_string_selection egExt egTor egStatErr 1 2).2.1 _ rfl

/-- C2: getProgressString selects exactly one of the five formats, determined
by isDone (leftUntilDone equal to zero), isSeed (haveValid at least the total
size) and seed-ratio presence, and appends the time-remaining suffix exactly
when the activity is download, or a seed ratio is set and the activity is
seed, reading Remaining time unknown for a negative eta and the formatted
time left otherwise. -/
theorem C2_progress_string_format (e : Externals) (tor : TrTorrent) (total_size : Nat)
    (st : TrStat) :
    (getProgressString e tor total_size st).1 =
      specProgressBody e tor total_size st
        (specProgressFormat (st.leftUntilDone == 0) (decide (total_size ≤ st.haveValid))
          (tr_torrentGetSeedRatio tor).isSome) ++
      specTimeLeftSuffix e st (tr_torrentGetSeedRatio tor).isSome := by
  by_cases h1 : st.leftUntilDone = 0 <;>
  by_cases h2 : total_size ≤ st.haveValid <;>
  rcases h3 : tr_torrentGetSeedRatio tor with _ | sr <;>
  by_cases h4 : st.activity = TrTorrentActivity.download <;>
  by_cases h5 : st.activity = TrTorrentActivity.seed <;>
  simp_all [getProgressString, specProgressFormat, specProgressBody, specTimeLeftSuffix,
    String.append_assoc] <;>
  rfl

/-- C4: the negotiated sizes are fixed arithmetic over the child renderer
preferred sizes: compact width is 2 xpad plus icon width plus GUI_PAD plus
the 50-pixel CompactBarWidth plus GUI_PAD plus the short-status width, and
compact height 2 ypad plus the larger of name height and bar height; full
width is 2 xpad plus icon width plus GUI_PAD plus the larger of the
progress-string and status-string widths, and full height stacks name,
progress string, bar and status with the two small paddings; and both
preferred-size vfuncs report minimum equal to natural. -/
theorem C4_size_negotiation (e : Externals) (props : RendererProps) (tor : TrTorrent)
    (crs : CRState) (mw nw mh nh : Int) (h : props.torrent = some tor) :
    ((get_size_compact e props tor crs).1 =
      (props.xpad * 2 +
        (e.measureIcon (set_icon crs.iconR (get_icon e tor) CompactIconSize)).width +
        GUI_PAD + CompactBarWidth + GUI_PAD +
        (e.measureText (compactStatSizeState e props tor crs)).width,
       props.ypad * 2 +
        max (e.measureText (compactNameSizeState tor crs)).height props.barHeight)) ∧
    CompactBarWidth = 50 ∧
    ((get_size_full e props tor crs).1 =
      (props.xpad * 2 +
        (e.measureIcon (set_icon crs.iconR (get_icon e tor) FullIconSize)).width +
        GUI_PAD +
        max (e.measureText (fullProgSizeState e tor crs)).width
          (e.measureText (fullStatSizeState e props tor crs)).width,
       props.ypad * 2 +
        (e.measureText (fullNameSizeState tor crs)).height +
        (e.measureText (fullProgSizeState e tor crs)).height +
        GUI_PAD_SMALL + props.barHeight + GUI_PAD_SMALL +
        (e.measureText (fullStatSizeState e props tor crs)).height)) ∧
    (get_preferred_width_vfunc e props crs mw nw).1.1 =
      (get_preferred_width_vfunc e props crs mw nw).1.2 ∧
    (get_preferred_height_vfunc e props crs mh nh).1.1 =
      (get_preferred_height_vfunc e props crs mh nh).1.2 := by
  refine ⟨rfl, rfl, ?_, ?_, ?_⟩
  · simp only [get_size_full, getStatusString_keeps_stat, fullProgSizeState,
      fullStatSizeState, fullNameSizeState, fullProgressStr, fullStatusStr]
  · simp only [get_preferred_width_vfunc, h]
  · simp only [get_preferred_height_vfunc, h]

theorem C4_size_negotiation_witness :
    (get_preferred_width_vfunc egExt egProps egCRS 0 0).1.1 =
      (get_preferred_width_vfunc egExt egProps egCRS 0 0).1.2 ∧
    (get_preferred_height_vfunc egExt egProps egCRS 0 0).1.1 =
      (get_preferred_height_vfunc egExt egProps egCRS 0 0).1.2 :=
  ⟨(C4_size_negotiation egExt egProps egTor egCRS 0 0 0 0 rfl).2.2.2.1,
   (C4_size_negotiation egExt egProps egTor egCRS 0 0 0 0 rfl).2.2.2.2⟩

/-- C3: in compact mode the four regions are packed inside the padding-inset
fill area and mirror between text directions: without DIR_RTL the icon sits
at the left edge, the progress bar at the right edge, the status immediately
left of the bar separated by GUI_PAD, and the name right of the icon; with
DIR_RTL the icon sits at the right edge, the bar at the left edge, the
status immediately right of the bar, and the name right of the status; in
both directions the name width is the fill width minus the icon, status and
bar widths minus three times GUI_PAD. -/
theorem C3_compact_layout_geometry (e : Externals) (props : RendererProps)
    (tor : TrTorrent) (rtl : Bool) (bg : Rect) (flags : CellFlags) (crs : CRState) :
    ((render_compact e props tor rtl bg flags crs).1.map RenderOp.kind =
      [RenderOpKind.iconK, RenderOpKind.barK, RenderOpKind.textK, RenderOpKind.textK]) ∧
    (rtl = false →
      (render_compact e props tor rtl bg flags crs).1.map RenderOp.area =
        [ ⟨(insetRect bg props.xpad props.ypad).x,
            (insetRect bg props.xpad props.ypad).y,
            compactIconWidth e tor crs,
            (insetRect bg props.xpad props.ypad).height⟩,
          ⟨(insetRect bg props.xpad props.ypad).x +
              (insetRect bg props.xpad props.ypad).width - CompactBarWidth,
            (insetRect bg props.xpad props.ypad).y,
            CompactBarWidth,
            (insetRect bg props.xpad props.ypad).height⟩,
          ⟨(insetRect bg props.xpad props.ypad).x +
              (insetRect bg props.xpad props.ypad).width - CompactBarWidth -
              compactStatWidth e props tor flags crs - GUI_PAD,
            (insetRect bg props.xpad props.ypad).y,
            compactStatWidth e props tor flags crs,
            (insetRect bg props.xpad props.ypad).height⟩,
          ⟨(insetRect bg props.xpad props.ypad).x + compactIconWidth e tor crs + GUI_PAD,
            (insetRect bg props.xpad props.ypad).y,
            (insetRect bg props.xpad props.ypad).width - compactIconWidth e tor crs -
              compactStatWidth e props tor flags crs - CompactBarWidth - GUI_PAD * 3,
            (insetRect bg props.xpad props.ypad).height⟩ ]) ∧
    (rtl = true →
      (render_compact e props tor rtl bg flags crs).1.map RenderOp.area =
        [ ⟨(insetRect bg props.xpad props.ypad).x +
              (insetRect bg props.xpad props.ypad).width - compactIconWidth e tor crs,
            (insetRect bg props.xpad props.ypad).y,
            compactIconWidth e tor crs,
            (insetRect bg props.xpad props.ypad).height⟩,
          ⟨(insetRect bg props.xpad props.ypad).x,
            (insetRect bg props.xpad props.ypad).y,
            CompactBarWidth,
            (insetRect bg props.xpad props.ypad).height⟩,
          ⟨(insetRect bg props.xpad props.ypad).x + CompactBarWidth + GUI_PAD,
            (insetRect bg props.xpad props.ypad).y,
            compactStatWidth e props tor flags crs,
            (insetRect bg props.xpad props.ypad).height⟩,
          ⟨(insetRect bg props.xpad props.ypad).x + CompactBarWidth + GUI_PAD +
              compactStatWidth e props tor flags crs + GUI_PAD,
            (insetRect bg props.xpad props.ypad).y,
            (insetRect bg props.xpad props.ypad).width - compactIconWidth e tor crs -
              compactStatWidth e props tor flags crs - CompactBarWidth - GUI_PAD * 3,
            (insetRect bg props.xpad props.ypad).height⟩ ]) := by
  refine ⟨rfl, ?_, ?_⟩
  · intro hrtl
    subst hrtl
    rfl
  · intro hrtl
    subst hrtl
    rfl

theorem C3_compact_layout_geometry_witness :
    (render_compact egExt egProps egTor false egRect egFlags egCRS).1.map RenderOp.area =
      [ ⟨(insetRect egRect egProps.xpad egProps.ypad).x,
          (insetRect egRect egProps.xpad egProps.ypad).y,
          compactIconWidth egExt egTor egCRS,
          (insetRect egRect egProps.xpad egProps.ypad).height⟩,
        ⟨(insetRect egRect egProps.xpad egProps.ypad).x +
            (insetRect egRect egProps.xpad egProps.ypad).width - CompactBarWidth,
          (insetRect egRect egProps.xpad egProps.ypad).y,
          CompactBarWidth,
          (insetRect egRect egProps.xpad egProps.ypad).height⟩,
        ⟨(insetRect egRect egProps.xpad egProps.ypad).x +
            (insetRect egRect egProps.xpad egProps.ypad).width - CompactBarWidth -
            compactStatWidth egExt egProps egTor egFlags egCRS - GUI_PAD,
          (insetRect egRect egProps.xpad egProps.ypad).y,
          compactStatWidth egExt egProps egTor egFlags egCRS,
          (insetRect egRect egProps.xpad egProps.ypad).height⟩,
        ⟨(insetRect egRect egProps.xpad egProps.ypad).x +
            compactIconWidth egExt egTor egCRS + GUI_PAD,
          (insetRect egRect egProps.xpad egProps.ypad).y,
          (insetRect egRect egProps.xpad egProps.ypad).width -
            compactIconWidth egExt egTor egCRS -
            compactStatWidth egExt egProps egTor egFlags egCRS - CompactBarWidth -
            GUI_PAD * 3,
          (insetRect egRect egProps.xpad egProps.ypad).height⟩ ] :=
  (C3_compact_layout_geometry egExt egProps egTor false egRect egFlags egCRS).2.1 rfl

/-- C7: in both layout modes the drawn row comprises an icon, the torrent
name, a progress bar, and both a status string and a progress string: in
compact mode the short status text plus the percent text shown on the bar;
in full mode the status text, the progress text, and a bar with no text. -/
theorem C7_row_contents (e : Externals) (props : RendererProps) (tor : TrTorrent)
    (rtl : Bool) (bg : Rect) (flags : CellFlags) (crs : CRState) :
    ((render_compact e props tor rtl bg flags crs).1.map RenderOp.kind =
      [RenderOpKind.iconK, RenderOpKind.barK, RenderOpKind.textK, RenderOpKind.textK]) ∧
    ((render_compact e props tor rtl bg flags crs).1.map RenderOp.textShown =
      [none, none,
        some (getShortStatusString e tor (tr_torrentStatCached tor)
          props.uploadSpeedKBps props.downloadSpeedKBps).1,
        some (tr_torrentName tor)]) ∧
    ((render_compact e props tor rtl bg flags crs).1.map RenderOp.barText =
      [none,
        some (toString (ratTruncToInt
          ((get_percent_done tor (tr_torrentStatCached tor)).1 * 100)) ++ "%"),
        none, none]) ∧
    ((render_full e props tor rtl bg flags crs).1.map RenderOp.kind =
      [RenderOpKind.iconK, RenderOpKind.textK, RenderOpKind.textK, RenderOpKind.barK,
        RenderOpKind.textK]) ∧
    ((render_full e props tor rtl bg flags crs).1.map RenderOp.textShown =
      [none, some (tr_torrentName tor), some (fullProgressStr e tor), none,
        some (getStatusString e tor (tr_torrentStatCached tor)
          props.uploadSpeedKBps props.downloadSpeedKBps false).1]) ∧
    ((render_full e props tor rtl bg flags crs).1.map RenderOp.barText =
      [none, none, none, some "", none]) :=
  ⟨rfl, rfl, rfl, rfl, rfl, rfl⟩

/-- C6: render_progress_bar is exactly the fixed recoloring pipeline the
specification describes: the progress indicator is drawn into a fresh ARGB32
surface with the width and height of the area; an A8 mask of the same dimensions is filled
black and cleared through the indicator surface, recording its fully
transparent areas; the background sub-surface is composited underneath with
DEST_OVER; the whole area is painted with the red, green and
blue through the HSL_COLOR operator; the masked areas are cleared again; and
the result is copied to the output at the position of the target area. -/
theorem C6_progress_bar_pipeline (e : Externals) (progR : ProgressRendererState)
    (area : Rect) (flags : CellFlags) (color : GdkRGBA) :
    render_progress_bar e progR area flags color =
      { tempFmt := CairoSurfaceFormat.argb32,
        tempW := area.width, tempH := area.height,
        tempCmds :=
          [ CairoCmd.renderCell progR ⟨0, 0, area.width, area.height⟩
              ⟨0, 0, area.width, area.height⟩ flags,
            CairoCmd.setSourceSurf SurfRef.bgSurf (e.deviceToUserX - (area.x : Rat))
              (e.deviceToUserY - (area.y : Rat)),
            CairoCmd.setOperator CairoOperator.destOver,
            CairoCmd.rectangle 0 0 area.width area.height,
            CairoCmd.fill,
            CairoCmd.setSourceRGB color.red color.green color.blue,
            CairoCmd.setOperator CairoOperator.hslColor,
            CairoCmd.rectangle 0 0 area.width area.height,
            CairoCmd.fill,
            CairoCmd.setOperator CairoOperator.clear,
            CairoCmd.maskSurface SurfRef.maskSurf ((0 : Int) : Rat) ((0 : Int) : Rat),
            CairoCmd.fill ],
        bgSurfaceArea := ⟨area.x, area.y, area.width, area.height⟩,
        maskRes :=
          { fmt := CairoSurfaceFormat.a8, w := area.width, h := area.height,
            cmds :=
              [ CairoCmd.setSourceRGB 0 0 0,
                CairoCmd.rectangle 0 0 area.width area.height,
                CairoCmd.fill,
                CairoCmd.setOperator CairoOperator.clear,
                CairoCmd.maskSurface SurfRef.tempSurf ((0 : Int) : Rat) ((0 : Int) : Rat),
                CairoCmd.fill ] },
        outCmds :=
          [ CairoCmd.setSourceSurf SurfRef.tempSurf ((area.x : Int) : Rat)
              ((area.y : Int) : Rat),
            CairoCmd.rectangle area.x area.y area.width area.height,
            CairoCmd.fill ] } := rfl
